import Mathlib

/-!
Shallow embedding of the churn-dashboard front-end (React/TypeScript).

The embedding covers the client-side prediction/simulation workflow:

* the filtered/sorted customer view (`filtered` useMemo in
  src/frontend/src/App.tsx, lines 130-141);
* the prediction request payloads built by `runPrediction`
  (src/frontend/src/App.tsx, lines 103-128) and by `callPredict` in the
  `ChurnSimulator` component (src/unnamed/part_001, lines 46-77);
* the retention-offer catalog and `applyOffer`
  (src/unnamed/part_001, lines 79-132);
* the simulator reset effect (src/unnamed/part_001, lines 34-44);
* the dashboard controller's load / predict / export error handling
  (src/frontend/src/App.tsx, lines 81-100, 103-128, 143-159);
* an event model for in-flight prediction requests and out-of-order
  response arrival.

JavaScript numbers are modelled as rationals (ℚ): every arithmetic
operation in the source (multiplication by 0.9/0.95, subtraction of 1,
`Math.max(0, _)`, probability deltas) is exact on the values involved.
Strings are Lean `String`s.  JavaScript's stable `Array.prototype.sort`
is modelled by a stable insertion sort: for a consistent comparator the
ECMAScript specification determines the sorted output uniquely (sorted
and stable), so any stable sort is an extensionally faithful model.
-/

/-- Model of JavaScript `String.prototype.toLowerCase` (ASCII identifiers). -/
def jsToLower (s : String) : String :=
  String.mk (s.data.map Char.toLower)

/-- Model of JavaScript `String.prototype.trim`: strip leading and trailing
whitespace. -/
def jsTrim (s : String) : String :=
  String.mk (((s.data.dropWhile Char.isWhitespace).reverse.dropWhile
    Char.isWhitespace).reverse)

/-- `charsContain needle hay = true` iff `needle` occurs as a contiguous
sublist of `hay`; the recursion mirrors substring search. -/
def charsContain (needle : List Char) : List Char → Bool
  | [] => needle.isEmpty
  | c :: t => needle.isPrefixOf (c :: t) || charsContain needle t

/-- Model of JavaScript `String.prototype.includes`. -/
def jsIncludes (hay needle : String) : Bool :=
  charsContain needle.data hay.data

/-- The `Customer` row type of src/frontend/src/App.tsx (lines 31-41). -/
structure Customer where
  customer_id : String
  tenure_months : ℚ
  monthly_charges : ℚ
  contract : String
  internet : String
  support_tickets : ℚ
  churn : ℚ
  churn_probability : ℚ
  risk_label : String
deriving DecidableEq

/-- A JSON field value: the payloads serialize strings and numbers. -/
inductive FieldVal where
  | str (s : String)
  | num (q : ℚ)
deriving DecidableEq

/-- The JSON body built by `runPrediction` in src/frontend/src/App.tsx
(lines 108-114): an association list of field name to value, in source
order. -/
def runPredictionPayload (selected : Customer) : List (String × FieldVal) :=
  [("tenure_months", FieldVal.num selected.tenure_months),
   ("monthly_charges", FieldVal.num selected.monthly_charges),
   ("contract", FieldVal.str selected.contract),
   ("internet", FieldVal.str selected.internet),
   ("support_tickets", FieldVal.num selected.support_tickets)]

/-- The JSON body built by `callPredict` in src/unnamed/part_001
(lines 54-60): `tenure_months` comes from the customer prop, the other
four fields from the simulator's current (next) values. -/
def callPredictPayload (tenure_months : ℚ) (nextContract nextInternet : String)
    (nextTickets nextCharges : ℚ) : List (String × FieldVal) :=
  [("tenure_months", FieldVal.num tenure_months),
   ("monthly_charges", FieldVal.num nextCharges),
   ("contract", FieldVal.str nextContract),
   ("internet", FieldVal.str nextInternet),
   ("support_tickets", FieldVal.num nextTickets)]

/-- The field names of a payload, in order. -/
def payloadKeys (p : List (String × FieldVal)) : List String :=
  p.map Prod.fst

/-- The sort-key union type of src/frontend/src/App.tsx (line 71). -/
inductive SortKey where
  | tenure_months
  | monthly_charges
  | support_tickets
deriving DecidableEq

/-- The sort-direction union type of src/frontend/src/App.tsx (line 74). -/
inductive SortDir where
  | asc
  | desc
deriving DecidableEq

/-- `a[sortKey]`: the numeric field a customer is compared by. -/
def sortVal (c : Customer) : SortKey → ℚ
  | SortKey.tenure_months => c.tenure_months
  | SortKey.monthly_charges => c.monthly_charges
  | SortKey.support_tickets => c.support_tickets

/-- The comparator of the `filtered` useMemo (src/frontend/src/App.tsx,
lines 135-140): `factor` is 1 for ascending, -1 for descending;
returns -1·factor, 1·factor, or 0. -/
def cmpCustomers (key : SortKey) (dir : SortDir) (a b : Customer) : Int :=
  let factor : Int := if dir = SortDir.asc then 1 else -1
  if sortVal a key < sortVal b key then -1 * factor
  else if sortVal b key < sortVal a key then 1 * factor
  else 0

/-- Insert `a` into `l`, before the first element `b` with `le a b`. -/
def insertLe (le : α → α → Bool) (a : α) : List α → List α
  | [] => [a]
  | b :: t => if le a b then a :: b :: t else b :: insertLe le a t

/-- Stable insertion sort: an element is inserted into the sorted tail
before every element it compares `le` to (in particular before elements
that compare equal, which all came later in the original list), so equal
elements keep their original relative order — the stability guarantee of
JavaScript `Array.prototype.sort`. -/
def insertionSort (le : α → α → Bool) : List α → List α
  | [] => []
  | a :: t => insertLe le a (insertionSort le t)

/-- The `filtered` useMemo of src/frontend/src/App.tsx (lines 130-141):
trim and lowercase the search term; an empty term keeps all customers,
otherwise keep those whose lowercased `customer_id` includes the term;
sort the subset with the comparator (an element may precede another iff
the comparator is ≤ 0). -/
def filteredView (customers : List Customer) (search : String)
    (key : SortKey) (dir : SortDir) : List Customer :=
  let term := jsToLower (jsTrim search)
  let subset := if term.data.isEmpty then customers
    else customers.filter (fun c => jsIncludes (jsToLower c.customer_id) term)
  insertionSort (fun a b => decide (cmpCustomers key dir a b ≤ 0)) subset

/-- The request type posted to `/predict`: exactly the five predictive
fields (src/unnamed/part_001, Props lines 5-12 and payload lines 54-60). -/
structure PredictionRequest where
  tenure_months : ℚ
  monthly_charges : ℚ
  contract : String
  internet : String
  support_tickets : ℚ
deriving DecidableEq

/-- A retention offer of the catalog in src/unnamed/part_001 (lines 79-106):
an id, a display title, and a pure transformation of a request. -/
structure Offer where
  id : String
  title : String
  apply : PredictionRequest → PredictionRequest

/-- Catalog entry `upgrade_combo` (src/unnamed/part_001, lines 80-88):
a Month-to-month contract becomes One year (other contracts unchanged),
and monthly charges are multiplied by 0.9, clamped at 0. -/
def upgradeCombo : Offer :=
  { id := "upgrade_combo"
    title := "Upgrade to 1-year + 10% discount"
    apply := fun req =>
      { req with
        contract := if req.contract = "Month-to-month" then "One year"
          else req.contract
        monthly_charges := max 0 (req.monthly_charges * (9 / 10)) } }

/-- Catalog entry `discount_only` (src/unnamed/part_001, lines 89-96):
monthly charges are multiplied by 0.9, clamped at 0. -/
def discountOnly : Offer :=
  { id := "discount_only"
    title := "10% discount (price incentive)"
    apply := fun req =>
      { req with monthly_charges := max 0 (req.monthly_charges * (9 / 10)) } }

/-- Catalog entry `service_recovery` (src/unnamed/part_001, lines 97-105):
support tickets decrease by 1 clamped at 0, monthly charges are multiplied
by 0.95 clamped at 0. -/
def serviceRecovery : Offer :=
  { id := "service_recovery"
    title := "Service recovery (-1 ticket) + 5% discount"
    apply := fun req =>
      { req with
        support_tickets := max 0 (req.support_tickets - 1)
        monthly_charges := max 0 (req.monthly_charges * (19 / 20)) } }

/-- The fixed offer catalog `offers` (src/unnamed/part_001, lines 79-106). -/
def offers : List Offer :=
  [upgradeCombo, discountOnly, serviceRecovery]

/-- The offer lookup of `applyOffer` (src/unnamed/part_001, line 116):
`offers.find((o) => o.id === offerId) ?? offers[0]`; the default
`upgradeCombo` is exactly `offers[0]`. -/
def findOffer (offerId : String) : Offer :=
  (offers.find? (fun o => o.id == offerId)).getD upgradeCombo

/-- The `customer` prop of the `ChurnSimulator` component
(src/unnamed/part_001, lines 5-12): the five predictive fields plus an
optional precomputed churn probability. -/
structure SimCustomer where
  tenure_months : ℚ
  monthly_charges : ℚ
  contract : String
  internet : String
  support_tickets : ℚ
  churn_probability : Option ℚ
deriving DecidableEq

/-- The `ChurnSimulator` component state (src/unnamed/part_001, lines 23-32):
baseline probability, the four simulated fields, the displayed probability,
the loading flag, the delta, the selected offer id, and the offer-scenario
probability. -/
structure SimState where
  baseline : ℚ
  contract : String
  internet : String
  tickets : ℚ
  charges : ℚ
  prob : ℚ
  loading : Bool
  delta : Option ℚ
  offerId : String
  offerProb : Option ℚ
deriving DecidableEq

/-- The useState initializers of `ChurnSimulator` (src/unnamed/part_001,
lines 23-32): baseline and prob are `baselineProb ?? customer.churn_probability
?? 0`, the four simulated fields copy the customer, loading is false, delta
and offerProb are null, the selected offer starts at `upgrade_combo`. -/
def simInit (c : SimCustomer) (baselineProb : Option ℚ) : SimState :=
  { baseline := baselineProb.getD (c.churn_probability.getD 0)
    contract := c.contract
    internet := c.internet
    tickets := c.support_tickets
    charges := c.monthly_charges
    prob := baselineProb.getD (c.churn_probability.getD 0)
    loading := false
    delta := none
    offerId := "upgrade_combo"
    offerProb := none }

/-- The reset effect of `ChurnSimulator` (src/unnamed/part_001, lines 34-44),
run whenever the `customer` prop or `baselineProb` changes: recompute the
baseline as `baselineProb ?? customer.churn_probability ?? 0`, reinitialize
the four simulated fields from the customer, show the baseline as the
probability, and clear delta and offerProb.  `offerId` and `loading` are
not touched by the effect. -/
def resetSim (c : SimCustomer) (baselineProb : Option ℚ) (st : SimState) :
    SimState :=
  { st with
    baseline := baselineProb.getD (c.churn_probability.getD 0)
    contract := c.contract
    internet := c.internet
    tickets := c.support_tickets
    charges := c.monthly_charges
    prob := baselineProb.getD (c.churn_probability.getD 0)
    delta := none
    offerProb := none }

/-- The state effect of one completed `callPredict` call
(src/unnamed/part_001, lines 46-77), given the outcome of the request
(`some p` for a decoded success with probability `p`, `none` for any
failure — transport error, non-ok status, or decode error).  On success
the handler sets `delta` to `p - baseline`, `prob` to `p`, and returns
`p`; on failure the catch block only logs and returns null; either way the
finally block clears `loading`.  The function is total: no exception
escapes to the caller.  The `next*` arguments feed only the request
payload (see `callPredictPayload`), never the state transition. -/
def callPredictStep (st : SimState) (nextContract nextInternet : String)
    (nextTickets nextCharges : ℚ) (outcome : Option ℚ) :
    SimState × Option ℚ :=
  match outcome with
  | some p =>
      ({ st with delta := some (p - st.baseline), prob := p, loading := false },
        some p)
  | none => ({ st with loading := false }, none)

/-- The body of `applyOffer` (src/unnamed/part_001, lines 108-132) with the
offer to apply made explicit: build a request from the current simulated
fields (tenure from the customer prop), apply the offer's transformation,
copy the transformed values back into the four simulated fields, run
`callPredict` on the transformed request, and on success record the result
as `offerProb` as well. -/
def applyOfferWith (offer : Offer) (tenure_months : ℚ) (st : SimState)
    (outcome : Option ℚ) : SimState :=
  let req : PredictionRequest :=
    { tenure_months := tenure_months
      monthly_charges := st.charges
      contract := st.contract
      internet := st.internet
      support_tickets := st.tickets }
  let afterReq := offer.apply req
  let st1 :=
    { st with
      contract := afterReq.contract
      internet := afterReq.internet
      tickets := afterReq.support_tickets
      charges := afterReq.monthly_charges }
  let resPair := callPredictStep st1 afterReq.contract afterReq.internet
    afterReq.support_tickets afterReq.monthly_charges outcome
  match resPair.2 with
  | some p => { resPair.1 with offerProb := some p }
  | none => resPair.1

/-- `applyOffer` (src/unnamed/part_001, lines 108-132): look up the selected
offer id in the catalog, falling back to `offers[0]`, then run
`applyOfferWith` on it. -/
def applyOfferStep (tenure_months : ℚ) (st : SimState) (outcome : Option ℚ) :
    SimState :=
  applyOfferWith (findOffer st.offerId) tenure_months st outcome

/-- The `Summary` response type of src/frontend/src/App.tsx (lines 15-23). -/
structure Summary where
  total_customers : ℚ
  churn_rate : ℚ
  avg_churn_probability : ℚ
  high_risk_alerts : ℚ
  moderate_risk_alerts : ℚ
  threshold_high : ℚ
  threshold_moderate : ℚ
deriving DecidableEq

/-- The `ChurnSegment` response type of src/frontend/src/App.tsx
(lines 25-29). -/
structure ChurnSegment where
  segment : String
  churn_rate : ℚ
  customers : ℚ
deriving DecidableEq

/-- The `Prediction` response type of src/frontend/src/App.tsx
(lines 43-47); a risk factor is a feature name with its impact. -/
structure Prediction where
  churn_probability : ℚ
  risk_label : String
  risk_factors : List (String × ℚ)
deriving DecidableEq

/-- The top-level `App` component state of src/frontend/src/App.tsx
(lines 66-78). -/
structure AppState where
  summary : Option Summary
  contractData : List ChurnSegment
  internetData : List ChurnSegment
  customers : List Customer
  search : String
  sortKey : SortKey
  sortDir : SortDir
  selected : Option Customer
  prediction : Option Prediction
  predictLoading : Bool
  error : Option String
deriving DecidableEq

/-- The joined result of the four initial fetches
(src/frontend/src/App.tsx, lines 84-89). -/
structure LoadedData where
  summary : Summary
  contractData : List ChurnSegment
  internetData : List ChurnSegment
  customers : List Customer

/-- The state effect of the initial `load` effect
(src/frontend/src/App.tsx, lines 81-100): on success of the joined
`Promise.all` the four datasets are stored; if any of the four fetches
fails the catch block sets the error banner text. -/
def loadStep (st : AppState) (result : Option LoadedData) : AppState :=
  match result with
  | some d =>
      { st with
        summary := some d.summary
        contractData := d.contractData
        internetData := d.internetData
        customers := d.customers }
  | none => { st with error := some "Unable to load data from API." }

/-- The state effect of one completed `runPrediction` call
(src/frontend/src/App.tsx, lines 103-128): if no customer is selected the
function returns immediately; otherwise on success the prediction is
stored, and on any failure the catch block logs and sets the prediction to
null — it does not touch `error`; the finally block clears
`predictLoading`. -/
def runPredictionStep (st : AppState) (outcome : Option Prediction) :
    AppState :=
  match st.selected with
  | none => st
  | some _ =>
      match outcome with
      | some p => { st with prediction := some p, predictLoading := false }
      | none => { st with prediction := none, predictLoading := false }

/-- The state effect of one completed `exportCsv` call
(src/frontend/src/App.tsx, lines 143-159): success only triggers a file
download; any failure sets the error banner text. -/
def exportCsvStep (st : AppState) (ok : Bool) : AppState :=
  if ok then st else { st with error := some "CSV export failed." }

/-- One in-flight `callPredict` request of the simulator: its issue-order
id and the `baseline` value captured by the closure when the request was
issued. -/
structure PendingReq where
  reqId : Nat
  capturedBaseline : ℚ
deriving DecidableEq

/-- The simulator together with its in-flight prediction requests:
`nextId` numbers requests in issue order, so a larger `reqId` means a more
recently issued request. -/
structure SimModel where
  sim : SimState
  pending : List PendingReq
  nextId : Nat
deriving DecidableEq

/-- An asynchronous event of the simulator session: a `callPredict`
invocation issues a request, and each in-flight request's response later
arrives, successfully with a probability or as a failure.  Arrival order
is unconstrained: the event list of a trace may deliver responses in any
order relative to issue order. -/
inductive SimEvent where
  | issue : SimEvent
  | arriveSuccess : Nat → ℚ → SimEvent
  | arriveFailure : Nat → SimEvent
deriving DecidableEq

/-- The success continuation of `callPredict` (src/unnamed/part_001,
lines 67-70 and 75): unconditionally set `delta` to the response
probability minus the captured baseline, set `prob` to the response
probability, and clear `loading`.  The source performs no comparison of
the arriving response against the most recently issued request. -/
def respondSuccess (st : SimState) (capturedBaseline p : ℚ) : SimState :=
  { st with delta := some (p - capturedBaseline), prob := p, loading := false }

/-- One event step of the simulator session.  `issue` models entering
`callPredict`: it sets `loading` and registers a new pending request
capturing the current baseline (src/unnamed/part_001, lines 52, 61-65).
An arrival for a pending request runs that request's continuation —
`respondSuccess` on success, or only the `finally` clearing of `loading`
on failure — and removes the request from the pending pool.  An arrival
for an unknown id is a no-op. -/
def stepEvent (m : SimModel) : SimEvent → SimModel
  | SimEvent.issue =>
      { m with
        sim := { m.sim with loading := true }
        pending := m.pending ++ [⟨m.nextId, m.sim.baseline⟩]
        nextId := m.nextId + 1 }
  | SimEvent.arriveSuccess rid p =>
      match m.pending.find? (fun q => q.reqId == rid) with
      | some q =>
          { m with
            sim := respondSuccess m.sim q.capturedBaseline p
            pending := m.pending.filter (fun q2 => q2.reqId != rid) }
      | none => m
  | SimEvent.arriveFailure rid =>
      match m.pending.find? (fun q => q.reqId == rid) with
      | some _ =>
          { m with
            sim := { m.sim with loading := false }
            pending := m.pending.filter (fun q2 => q2.reqId != rid) }
      | none => m

/-- Run a trace of simulator events from an initial model. -/
def runTrace (m : SimModel) (events : List SimEvent) : SimModel :=
  events.foldl stepEvent m

/-- A concrete customer prop for the simulator. -/
def demoSimCustomer : SimCustomer :=
  { tenure_months := 12
    monthly_charges := 80
    contract := "Month-to-month"
    internet := "Fiber"
    support_tickets := 2
    churn_probability := some 0 }

/-- A concrete simulator session with no request in flight. -/
def demoSimModel : SimModel :=
  { sim := simInit demoSimCustomer (some 0)
    pending := []
    nextId := 0 }

/-- The out-of-order trace: request 0 is issued, then request 1; request 1
(the most recently issued) resolves first with probability 3/10, then the
stale response of request 0 arrives with probability 8/10. -/
def staleTrace : List SimEvent :=
  [SimEvent.issue, SimEvent.issue,
   SimEvent.arriveSuccess 1 (3 / 10), SimEvent.arriveSuccess 0 (8 / 10)]

/-- A concrete prediction request used by witnesses. -/
def c5Req : PredictionRequest :=
  { tenure_months := 12
    monthly_charges := 80
    contract := "Month-to-month"
    internet := "Fiber"
    support_tickets := 2 }

/-- A concrete request with a Month-to-month contract and charges 100. -/
def c4ReqA : PredictionRequest :=
  { tenure_months := 12
    monthly_charges := 100
    contract := "Month-to-month"
    internet := "Fiber"
    support_tickets := 2 }

/-- A concrete request whose contract is already Two year. -/
def c4ReqB : PredictionRequest :=
  { tenure_months := 30
    monthly_charges := 40
    contract := "Two year"
    internet := "DSL"
    support_tickets := 1 }

/-- Claim C2: every prediction request body — the baseline one built by
`runPrediction` from the selected customer and the simulated one built by
`callPredict` — carries exactly the five predictive field names in source
order, and never `customer_id` or `churn`. -/
theorem C2_payload_exactly_five_fields :
    (∀ c : Customer,
      payloadKeys (runPredictionPayload c) =
        ["tenure_months", "monthly_charges", "contract", "internet",
          "support_tickets"] ∧
      "customer_id" ∉ payloadKeys (runPredictionPayload c) ∧
      "churn" ∉ payloadKeys (runPredictionPayload c)) ∧
    (∀ (tenure_months nextTickets nextCharges : ℚ)
      (nextContract nextInternet : String),
      payloadKeys (callPredictPayload tenure_months nextContract nextInternet
          nextTickets nextCharges) =
        ["tenure_months", "monthly_charges", "contract", "internet",
          "support_tickets"] ∧
      "customer_id" ∉ payloadKeys (callPredictPayload tenure_months
        nextContract nextInternet nextTickets nextCharges) ∧
      "churn" ∉ payloadKeys (callPredictPayload tenure_months nextContract
        nextInternet nextTickets nextCharges)) := by
  constructor
  · intro c
    refine ⟨rfl, ?_, ?_⟩ <;> simp [payloadKeys, runPredictionPayload]
  · intro tenure_months nextTickets nextCharges nextContract nextInternet
    refine ⟨rfl, ?_, ?_⟩ <;> simp [payloadKeys, callPredictPayload]

/-- Claim C4: applying `upgrade_combo` to a Month-to-month request with
charges 100 yields a One-year contract and charges 90; applying it to a
request already on a Two-year contract leaves the contract unchanged and
still multiplies the (non-negative) charges by 0.9. -/
theorem C4_upgrade_combo_contract_and_discount :
    (∀ r : PredictionRequest, r.contract = "Month-to-month" →
      r.monthly_charges = 100 →
      (upgradeCombo.apply r).contract = "One year" ∧
      (upgradeCombo.apply r).monthly_charges = 90) ∧
    (∀ r : PredictionRequest, r.contract = "Two year" →
      0 ≤ r.monthly_charges →
      (upgradeCombo.apply r).contract = r.contract ∧
      (upgradeCombo.apply r).monthly_charges = r.monthly_charges * (9 / 10)) := by
  constructor
  · intro r hc hm
    constructor
    · simp [upgradeCombo, hc]
    · simp only [upgradeCombo, hm]
      norm_num
  · intro r hc hm
    constructor
    · simp [upgradeCombo, hc]
    · simp only [upgradeCombo]
      exact max_eq_right (mul_nonneg hm (by norm_num))

/-- Witness for C4 at the concrete requests `c4ReqA` and `c4ReqB`. -/
theorem C4_upgrade_combo_contract_and_discount_witness :
    ((upgradeCombo.apply c4ReqA).contract = "One year" ∧
      (upgradeCombo.apply c4ReqA).monthly_charges = 90) ∧
    ((upgradeCombo.apply c4ReqB).contract = c4ReqB.contract ∧
      (upgradeCombo.apply c4ReqB).monthly_charges =
        c4ReqB.monthly_charges * (9 / 10)) :=
  ⟨C4_upgrade_combo_contract_and_discount.1 c4ReqA rfl rfl,
    C4_upgrade_combo_contract_and_discount.2 c4ReqB rfl (by norm_num [c4ReqB])⟩

/-- Claim C5: every offer in the catalog maps a request with non-negative
charges and tickets to a request with non-negative charges and tickets. -/
theorem C5_offers_preserve_nonneg (o : Offer) (ho : o ∈ offers)
    (r : PredictionRequest) (hmc : 0 ≤ r.monthly_charges)
    (hst : 0 ≤ r.support_tickets) :
    0 ≤ (o.apply r).monthly_charges ∧ 0 ≤ (o.apply r).support_tickets := by
  simp only [offers] at ho
  fin_cases ho <;> refine ⟨?_, ?_⟩ <;>
    simp [upgradeCombo, discountOnly, serviceRecovery, hst, le_max_iff]

/-- Witness for C5: the `service_recovery` offer applied to `c5Req`. -/
theorem C5_offers_preserve_nonneg_witness :
    0 ≤ (serviceRecovery.apply c5Req).monthly_charges ∧
    0 ≤ (serviceRecovery.apply c5Req).support_tickets :=
  C5_offers_preserve_nonneg serviceRecovery (by simp [offers]) c5Req
    (by norm_num [c5Req]) (by norm_num [c5Req])

/-- Claim C10: every offer in the catalog leaves `tenure_months` and
`internet` of the request unchanged. -/
theorem C10_offers_leave_tenure_and_internet (o : Offer) (ho : o ∈ offers)
    (r : PredictionRequest) :
    (o.apply r).tenure_months = r.tenure_months ∧
    (o.apply r).internet = r.internet := by
  simp only [offers] at ho
  fin_cases ho <;> exact ⟨rfl, rfl⟩

/-- Witness for C10: the `upgrade_combo` offer applied to `c5Req`. -/
theorem C10_offers_leave_tenure_and_internet_witness :
    (upgradeCombo.apply c5Req).tenure_months = c5Req.tenure_months ∧
    (upgradeCombo.apply c5Req).internet = c5Req.internet :=
  C10_offers_leave_tenure_and_internet upgradeCombo (by simp [offers]) c5Req

/-- Claim C7: a failing `callPredict` call leaves the last successfully
computed probability, delta and offer probability (and the baseline)
unchanged, clears the loading indicator, and returns null instead of
throwing. -/
theorem C7_predict_failure_is_atomic (st : SimState)
    (nextContract nextInternet : String) (nextTickets nextCharges : ℚ) :
    (callPredictStep st nextContract nextInternet nextTickets nextCharges
        none).1.prob = st.prob ∧
    (callPredictStep st nextContract nextInternet nextTickets nextCharges
        none).1.delta = st.delta ∧
    (callPredictStep st nextContract nextInternet nextTickets nextCharges
        none).1.offerProb = st.offerProb ∧
    (callPredictStep st nextContract nextInternet nextTickets nextCharges
        none).1.baseline = st.baseline ∧
    (callPredictStep st nextContract nextInternet nextTickets nextCharges
        none).1.loading = false ∧
    (callPredictStep st nextContract nextInternet nextTickets nextCharges
        none).2 = none :=
  ⟨rfl, rfl, rfl, rfl, rfl, rfl⟩

/-- Claim C8: the reset effect reinitializes all four simulated fields
from the new customer, sets both the baseline and the displayed
probability to the new baseline, and clears delta and the offer
probability — whatever the previous simulator state was. -/
theorem C8_reset_reinitializes_from_new_customer (c : SimCustomer)
    (baselineProb : Option ℚ) (st : SimState) :
    (resetSim c baselineProb st).contract = c.contract ∧
    (resetSim c baselineProb st).internet = c.internet ∧
    (resetSim c baselineProb st).tickets = c.support_tickets ∧
    (resetSim c baselineProb st).charges = c.monthly_charges ∧
    (resetSim c baselineProb st).baseline =
      baselineProb.getD (c.churn_probability.getD 0) ∧
    (resetSim c baselineProb st).prob =
      (resetSim c baselineProb st).baseline ∧
    (resetSim c baselineProb st).delta = none ∧
    (resetSim c baselineProb st).offerProb = none :=
  ⟨rfl, rfl, rfl, rfl, rfl, rfl, rfl, rfl⟩

/-- A concrete simulator state whose selected offer id matches no catalog
entry. -/
def c6SimState : SimState :=
  { baseline := 0
    contract := "Month-to-month"
    internet := "Fiber"
    tickets := 2
    charges := 80
    prob := 0
    loading := false
    delta := none
    offerId := "mystery_offer"
    offerProb := none }

/-- Claim C6: an offer id matching no catalog entry makes `applyOffer`
behave exactly as if the first catalog offer (`upgrade_combo`, the head of
`offers`) had been requested: the lookup falls back to it and the whole
`applyOffer` step — transformation, field write-back and prediction —
coincides with running it on the first offer. -/
theorem C6_unknown_offer_falls_back_to_first (offerId : String)
    (h1 : offerId ≠ "upgrade_combo") (h2 : offerId ≠ "discount_only")
    (h3 : offerId ≠ "service_recovery") :
    offers.head? = some upgradeCombo ∧
    findOffer offerId = upgradeCombo ∧
    ∀ (tenure_months : ℚ) (st : SimState) (outcome : Option ℚ),
      st.offerId = offerId →
      applyOfferStep tenure_months st outcome =
        applyOfferWith upgradeCombo tenure_months st outcome := by
  have hnone : offers.find? (fun o => o.id == offerId) = none := by
    rw [List.find?_eq_none]
    intro o ho
    simp only [offers] at ho
    fin_cases ho <;>
      simp [upgradeCombo, discountOnly, serviceRecovery] <;>
      first
        | exact fun he => h1 he.symm
        | exact fun he => h2 he.symm
        | exact fun he => h3 he.symm
  have hfind : findOffer offerId = upgradeCombo := by
    rw [findOffer, hnone]
    rfl
  refine ⟨rfl, hfind, ?_⟩
  intro tenure_months st outcome hid
  rw [applyOfferStep, hid, hfind]

/-- Witness for C6 at the unknown id of `c6SimState`. -/
theorem C6_unknown_offer_falls_back_to_first_witness :
    findOffer "mystery_offer" = upgradeCombo ∧
    applyOfferStep 12 c6SimState none =
      applyOfferWith upgradeCombo 12 c6SimState none :=
  ⟨(C6_unknown_offer_falls_back_to_first "mystery_offer" (by decide)
      (by decide) (by decide)).2.1,
    (C6_unknown_offer_falls_back_to_first "mystery_offer" (by decide)
      (by decide) (by decide)).2.2 12 c6SimState none rfl⟩

/-- A concrete customer row of the dashboard. -/
def c9Customer : Customer :=
  { customer_id := "C001"
    tenure_months := 12
    monthly_charges := 80
    contract := "Month-to-month"
    internet := "Fiber"
    support_tickets := 2
    churn := 0
    churn_probability := 0
    risk_label := "Low" }

/-- A concrete dashboard state with a selected customer, a prediction
request in flight and no error shown. -/
def c9AppState : AppState :=
  { summary := none
    contractData := []
    internetData := []
    customers := [c9Customer]
    search := ""
    sortKey := SortKey.tenure_months
    sortDir := SortDir.desc
    selected := some c9Customer
    prediction := none
    predictLoading := true
    error := none }

/-- Counterexample to claim C9 as stated: in the concrete state
`c9AppState` a prediction request fails, the call completes (the loading
flag is cleared), and the user-visible error state is still not set — the
prediction failure was swallowed by the `runPrediction` catch block, which
only logs and clears the prediction. -/
theorem C9_counterexample_predict_failure_swallowed :
    (runPredictionStep c9AppState none).error = none ∧
    (runPredictionStep c9AppState none).predictLoading = false ∧
    (runPredictionStep c9AppState none).prediction = none :=
  ⟨rfl, rfl, rfl⟩

/-- Claim C9 as amended: failing initial-load fetches and failing CSV
exports set the user-visible error state, but failing prediction calls
never touch it — they only clear the prediction and the loading flag. -/
theorem C9_amended_error_surfacing :
    (∀ st : AppState,
      (loadStep st none).error = some "Unable to load data from API.") ∧
    (∀ st : AppState,
      (exportCsvStep st false).error = some "CSV export failed.") ∧
    (∀ (st : AppState) (outcome : Option Prediction),
      (runPredictionStep st outcome).error = st.error) := by
  refine ⟨fun st => rfl, fun st => rfl, ?_⟩
  intro st outcome
  cases hsel : st.selected <;> cases outcome <;>
    simp [runPredictionStep, hsel]

/-- Claim C1, evaluated at the failing trace: request 0 is issued, then
request 1; the response of request 1 — the most recently issued request —
arrives first with probability 3/10, then the stale response of request 0
arrives with probability 8/10.  The source has no request sequence guard,
so the stale response overwrites the state: the final displayed
probability is 8/10, the earlier request's result, not the most recent
request's 3/10 that the ordering guarantee demands. -/
theorem C1_stale_response_overwrites_latest :
    (runTrace demoSimModel staleTrace).sim.prob = 8 / 10 ∧
    (runTrace demoSimModel staleTrace).sim.prob ≠ 3 / 10 := by
  have h : (runTrace demoSimModel staleTrace).sim.prob = 8 / 10 := rfl
  refine ⟨h, ?_⟩
  rw [h]
  norm_num

/-- Inserting an element permutes consing it. -/
theorem insertLe_perm (le : α → α → Bool) (a : α) (l : List α) :
    (insertLe le a l).Perm (a :: l) := by
  induction l with
  | nil => exact List.Perm.refl _
  | cons b t ih =>
    simp only [insertLe]
    by_cases h : le a b = true
    · rw [if_pos h]
    · rw [if_neg h]
      exact (ih.cons b).trans (List.Perm.swap a b t)

/-- Insertion sort permutes its input. -/
theorem insertionSort_perm (le : α → α → Bool) (l : List α) :
    (insertionSort le l).Perm l := by
  induction l with
  | nil => exact List.Perm.refl _
  | cons a t ih => exact (insertLe_perm le a (insertionSort le t)).trans (ih.cons a)

/-- Members of an insertion are the inserted element or old members. -/
theorem mem_insertLe {le : α → α → Bool} {x a : α} {l : List α}
    (hx : x ∈ insertLe le a l) : x = a ∨ x ∈ l := by
  have hm := (insertLe_perm le a l).mem_iff.mp hx
  exact List.mem_cons.mp hm

/-- Inserting into a list sorted by a total transitive Boolean relation
keeps it sorted. -/
theorem insertLe_pairwise {le : α → α → Bool}
    (htot : ∀ x y, le x y = true ∨ le y x = true)
    (htrans : ∀ x y z, le x y = true → le y z = true → le x z = true)
    (a : α) {l : List α} (hl : l.Pairwise (fun x y => le x y = true)) :
    (insertLe le a l).Pairwise (fun x y => le x y = true) := by
  induction l with
  | nil => simp [insertLe]
  | cons b t ih =>
    rcases List.pairwise_cons.mp hl with ⟨hb, ht⟩
    simp only [insertLe]
    by_cases h : le a b = true
    · rw [if_pos h]
      refine List.pairwise_cons.mpr ⟨?_, hl⟩
      intro y hy
      rcases List.mem_cons.mp hy with rfl | hyt
      · exact h
      · exact htrans a b y h (hb y hyt)
    · rw [if_neg h]
      refine List.pairwise_cons.mpr ⟨?_, ih ht⟩
      intro y hy
      rcases mem_insertLe hy with hya | hyt
      · rw [hya]
        rcases htot a b with hab | hba
        · exact absurd hab h
        · exact hba
      · exact hb y hyt

/-- Insertion sort sorts, for a total transitive Boolean relation. -/
theorem insertionSort_pairwise {le : α → α → Bool}
    (htot : ∀ x y, le x y = true ∨ le y x = true)
    (htrans : ∀ x y z, le x y = true → le y z = true → le x z = true)
    (l : List α) :
    (insertionSort le l).Pairwise (fun x y => le x y = true) := by
  induction l with
  | nil => simp [insertionSort]
  | cons a t ih => exact insertLe_pairwise htot htrans a ih

/-- The ascending comparator is non-positive exactly when the first
sort-key value is at most the second. -/
theorem cmp_asc_nonpos_iff (key : SortKey) (a b : Customer) :
    cmpCustomers key SortDir.asc a b ≤ 0 ↔ sortVal a key ≤ sortVal b key := by
  unfold cmpCustomers
  simp only [reduceCtorEq, if_true, reduceIte]
  split_ifs with h1 h2
  · exact iff_of_true (by norm_num) (le_of_lt h1)
  · exact iff_of_false (by norm_num) (not_le.mpr h2)
  · exact iff_of_true le_rfl (not_lt.mp h2)

/-- The descending comparator is non-positive exactly when the second
sort-key value is at most the first. -/
theorem cmp_desc_nonpos_iff (key : SortKey) (a b : Customer) :
    cmpCustomers key SortDir.desc a b ≤ 0 ↔ sortVal b key ≤ sortVal a key := by
  unfold cmpCustomers
  simp only [reduceCtorEq, if_false, reduceIte]
  split_ifs with h1 h2
  · exact iff_of_false (by norm_num) (not_le.mpr h1)
  · exact iff_of_true (by norm_num) (le_of_lt h2)
  · exact iff_of_true le_rfl (not_lt.mp h1)

/-- The filter-then-sort view, with the filtering stage named. -/
def viewSubset (customers : List Customer) (search : String) : List Customer :=
  if (jsToLower (jsTrim search)).data.isEmpty then customers
  else customers.filter
    (fun c => jsIncludes (jsToLower c.customer_id) (jsToLower (jsTrim search)))

/-- `filteredView` is the stable sort of the filtered subset. -/
theorem filteredView_eq_sort_subset (customers : List Customer) (search : String)
    (key : SortKey) (dir : SortDir) :
    filteredView customers search key dir =
      insertionSort (fun a b => decide (cmpCustomers key dir a b ≤ 0))
        (viewSubset customers search) := rfl

/-- The filtered subset is a sublist of the stored customers. -/
theorem viewSubset_sublist (customers : List Customer) (search : String) :
    (viewSubset customers search).Sublist customers := by
  unfold viewSubset
  split
  · exact List.Sublist.refl _
  · exact List.filter_sublist _

/-- Claim C3 as amended: recomputing the view with the same arguments is
deterministic (twice the identical ordering, for either direction), and —
provided the stored customers have pairwise distinct values of the chosen
sort key — the descending view is the exact reverse of the ascending view.
(With equal key values the stable sort keeps tied customers in stored
order in both directions, so the reversal fails there; see the
counterexample.) -/
theorem C3_view_deterministic_and_desc_reverses_asc
    (customers : List Customer) (search : String) (key : SortKey)
    (hdist : customers.Pairwise (fun a b => sortVal a key ≠ sortVal b key)) :
    filteredView customers search key SortDir.asc =
      filteredView customers search key SortDir.asc ∧
    filteredView customers search key SortDir.desc =
      filteredView customers search key SortDir.desc ∧
    filteredView customers search key SortDir.desc =
      (filteredView customers search key SortDir.asc).reverse := by
  refine ⟨rfl, rfl, ?_⟩
  have hdistSub : (viewSubset customers search).Pairwise
      (fun a b => sortVal a key ≠ sortVal b key) :=
    List.Pairwise.sublist (viewSubset_sublist customers search) hdist
  have htotA : ∀ x y : Customer,
      decide (cmpCustomers key SortDir.asc x y ≤ 0) = true ∨
      decide (cmpCustomers key SortDir.asc y x ≤ 0) = true := by
    intro x y
    rcases le_total (sortVal x key) (sortVal y key) with h | h
    · exact Or.inl (decide_eq_true ((cmp_asc_nonpos_iff key x y).mpr h))
    · exact Or.inr (decide_eq_true ((cmp_asc_nonpos_iff key y x).mpr h))
  have htransA : ∀ x y z : Customer,
      decide (cmpCustomers key SortDir.asc x y ≤ 0) = true →
      decide (cmpCustomers key SortDir.asc y z ≤ 0) = true →
      decide (cmpCustomers key SortDir.asc x z ≤ 0) = true := by
    intro x y z hxy hyz
    exact decide_eq_true ((cmp_asc_nonpos_iff key x z).mpr
      (le_trans ((cmp_asc_nonpos_iff key x y).mp (of_decide_eq_true hxy))
        ((cmp_asc_nonpos_iff key y z).mp (of_decide_eq_true hyz))))
  have htotD : ∀ x y : Customer,
      decide (cmpCustomers key SortDir.desc x y ≤ 0) = true ∨
      decide (cmpCustomers key SortDir.desc y x ≤ 0) = true := by
    intro x y
    rcases le_total (sortVal y key) (sortVal x key) with h | h
    · exact Or.inl (decide_eq_true ((cmp_desc_nonpos_iff key x y).mpr h))
    · exact Or.inr (decide_eq_true ((cmp_desc_nonpos_iff key y x).mpr h))
  have htransD : ∀ x y z : Customer,
      decide (cmpCustomers key SortDir.desc x y ≤ 0) = true →
      decide (cmpCustomers key SortDir.desc y z ≤ 0) = true →
      decide (cmpCustomers key SortDir.desc x z ≤ 0) = true := by
    intro x y z hxy hyz
    exact decide_eq_true ((cmp_desc_nonpos_iff key x z).mpr
      (le_trans ((cmp_desc_nonpos_iff key y z).mp (of_decide_eq_true hyz))
        ((cmp_desc_nonpos_iff key x y).mp (of_decide_eq_true hxy))))
  have hpermA : (insertionSort
      (fun a b => decide (cmpCustomers key SortDir.asc a b ≤ 0))
      (viewSubset customers search)).Perm (viewSubset customers search) :=
    insertionSort_perm _ _
  have hpermD : (insertionSort
      (fun a b => decide (cmpCustomers key SortDir.desc a b ≤ 0))
      (viewSubset customers search)).Perm (viewSubset customers search) :=
    insertionSort_perm _ _
  have hsortA : (insertionSort
      (fun a b => decide (cmpCustomers key SortDir.asc a b ≤ 0))
      (viewSubset customers search)).Pairwise
      (fun a b => sortVal a key ≤ sortVal b key) :=
    (insertionSort_pairwise htotA htransA _).imp
      (fun h => (cmp_asc_nonpos_iff key _ _).mp (of_decide_eq_true h))
  have hsortD : (insertionSort
      (fun a b => decide (cmpCustomers key SortDir.desc a b ≤ 0))
      (viewSubset customers search)).Pairwise
      (fun a b => sortVal b key ≤ sortVal a key) :=
    (insertionSort_pairwise htotD htransD _).imp
      (fun h => (cmp_desc_nonpos_iff key _ _).mp (of_decide_eq_true h))
  have hneSymm : ∀ {x y : Customer},
      sortVal x key ≠ sortVal y key → sortVal y key ≠ sortVal x key :=
    fun h => h.symm
  have hdistA := (hpermA.pairwise_iff hneSymm).mpr hdistSub
  have hdistD := (hpermD.pairwise_iff hneSymm).mpr hdistSub
  have hstrictA : (insertionSort
      (fun a b => decide (cmpCustomers key SortDir.asc a b ≤ 0))
      (viewSubset customers search)).Pairwise
      (fun a b => sortVal a key < sortVal b key) :=
    (hsortA.and hdistA).imp (fun h => lt_of_le_of_ne h.1 h.2)
  have hstrictDrev : ((insertionSort
      (fun a b => decide (cmpCustomers key SortDir.desc a b ≤ 0))
      (viewSubset customers search)).reverse).Pairwise
      (fun a b => sortVal a key < sortVal b key) := by
    rw [List.pairwise_reverse]
    exact (hsortD.and hdistD).imp (fun h => lt_of_le_of_ne h.1 (Ne.symm h.2))
  haveI : IsAntisymm Customer (fun a b => sortVal a key < sortVal b key) :=
    ⟨fun a b h1 h2 => absurd h2 (lt_asymm h1)⟩
  have hperm : ((insertionSort
      (fun a b => decide (cmpCustomers key SortDir.desc a b ≤ 0))
      (viewSubset customers search)).reverse).Perm
      (insertionSort (fun a b => decide (cmpCustomers key SortDir.asc a b ≤ 0))
        (viewSubset customers search)) :=
    ((List.reverse_perm _).trans hpermD).trans hpermA.symm
  have heq := List.eq_of_perm_of_sorted hperm hstrictDrev hstrictA
  rw [filteredView_eq_sort_subset, filteredView_eq_sort_subset, ← heq,
    List.reverse_reverse]

/-- A customer with tenure 5, stored first. -/
def tieCustomerA : Customer :=
  { customer_id := "C001"
    tenure_months := 5
    monthly_charges := 50
    contract := "Month-to-month"
    internet := "Fiber"
    support_tickets := 1
    churn := 0
    churn_probability := 0
    risk_label := "Low" }

/-- A second customer with the same tenure 5, stored second. -/
def tieCustomerB : Customer :=
  { customer_id := "C002"
    tenure_months := 5
    monthly_charges := 60
    contract := "One year"
    internet := "DSL"
    support_tickets := 3
    churn := 1
    churn_probability := 0
    risk_label := "High" }

/-- A third customer with a distinct tenure 9. -/
def distinctCustomerC : Customer :=
  { customer_id := "C003"
    tenure_months := 9
    monthly_charges := 70
    contract := "Two year"
    internet := "None"
    support_tickets := 0
    churn := 0
    churn_probability := 0
    risk_label := "Low" }

/-- Counterexample to claim C3 as stated: with two stored customers that
have equal tenure, the stable sort keeps them in stored order for BOTH
directions — the comparator returns 0 on the tie — so the descending view
is not the reverse of the ascending view. -/
theorem C3_counterexample_equal_keys :
    filteredView [tieCustomerA, tieCustomerB] "" SortKey.tenure_months
        SortDir.desc ≠
      (filteredView [tieCustomerA, tieCustomerB] "" SortKey.tenure_months
        SortDir.asc).reverse := by decide

/-- Witness for the amended C3 on customers with distinct tenures. -/
theorem C3_view_deterministic_and_desc_reverses_asc_witness :
    ([tieCustomerA, distinctCustomerC].Pairwise
      (fun a b => sortVal a SortKey.tenure_months ≠
        sortVal b SortKey.tenure_months)) ∧
    filteredView [tieCustomerA, distinctCustomerC] "" SortKey.tenure_months
        SortDir.desc =
      (filteredView [tieCustomerA, distinctCustomerC] "" SortKey.tenure_months
        SortDir.asc).reverse :=
  ⟨by decide,
    (C3_view_deterministic_and_desc_reverses_asc
      [tieCustomerA, distinctCustomerC] "" SortKey.tenure_months
      (by decide)).2.2⟩
